import Mathlib

/-!
Verification of `src/screenshot_app.py` (roseweigee/screenshot) against its
natural-language specification.

The Python program is shallowly embedded below: pure arithmetic (page-geometry
measurement, start-height handling, hard caps, cropping) becomes Lean
functions on `Nat`; the stateful capture routine becomes an explicit
state-passing function over a small environment recording which fallible
browser/codec calls raise; string sniffing (the `in` operator of Python) becomes a
substring test on `String`; the CLI construction (`create_parser` / `main`)
becomes a small interpreter over the sequence of name-binding statements that
the function body executes.
-/

/-! ### The `in` operator of Python on strings -/

/-- Auxiliary scan: does `n` occur as a contiguous run inside the character
list?  Mirrors the substring containment test of Python. -/
def strHasSubAux (n : List Char) : List Char → Bool
  | [] => n.isEmpty
  | c :: t => if n.isPrefixOf (c :: t) then true else strHasSubAux n t

/-- The Python expression `needle in hay` for strings. -/
def strHasSub (needle hay : String) : Bool :=
  strHasSubAux needle.data hay.data

/-- The Python method `str.lower` (the markers matched are all ASCII, where
character-wise `Char.toLower` coincides with the Python lowering). -/
def pyLower (s : String) : String :=
  String.mk (s.data.map Char.toLower)

/-! ### Page geometry (capture_full_page, lines 607–627)

`capture_full_page` measures the page with two JavaScript expressions, each
taking `Math.max` over six document metrics (body/documentElement ×
scroll/offset/client extents). -/

/-- The six width metrics and six height metrics the JavaScript reads. -/
structure PageMetrics where
  bodyScrollW : Nat
  docScrollW : Nat
  bodyOffsetW : Nat
  docOffsetW : Nat
  bodyClientW : Nat
  docClientW : Nat
  bodyScrollH : Nat
  docScrollH : Nat
  bodyOffsetH : Nat
  docOffsetH : Nat
  bodyClientH : Nat
  docClientH : Nat
deriving DecidableEq, Repr

/-- The six height metrics, in source order. -/
def heightMetrics (m : PageMetrics) : List Nat :=
  [m.bodyScrollH, m.docScrollH, m.bodyOffsetH, m.docOffsetH, m.bodyClientH, m.docClientH]

/-- The six width metrics, in source order. -/
def widthMetrics (m : PageMetrics) : List Nat :=
  [m.bodyScrollW, m.docScrollW, m.bodyOffsetW, m.docOffsetW, m.bodyClientW, m.docClientW]

/-- `total_height` as the JavaScript computes it: `Math.max` over the six
height metrics. -/
def measuredPageHeight (m : PageMetrics) : Nat :=
  (heightMetrics m).foldr max 0

/-- `total_width` as the JavaScript computes it: `Math.max` over the six
width metrics. -/
def measuredPageWidth (m : PageMetrics) : Nat :=
  (widthMetrics m).foldr max 0

/-! ### Start-height handling and the hard caps (lines 633–650)

The code first handles `start_height` (lines 634–640): if `start_height > 0`
and `start_height >= total_height` it prints a warning and resets
`start_height` to `0`; otherwise it subtracts it from `total_height`.  Only
afterwards (lines 644–650) does it clamp `total_height` to `20000` (and
`total_width` to `7680`). -/

/-- The effective `(start_height, total_height)` pair after lines 634–650:
start-height reset-or-subtract first, then the 20000 hard cap on the height. -/
def effectiveRange (total start : Nat) : Nat × Nat :=
  if start > 0 then
    if start ≥ total then (0, min total 20000)
    else (start, min (total - start) 20000)
  else (0, min total 20000)

/-- `resolvedHeight m s`: the capture height the code actually proceeds with,
for a page measured as `m` and a requested start height `s`. -/
def resolvedHeight (m : PageMetrics) (s : Nat) : Nat :=
  (effectiveRange (measuredPageHeight m) s).2

/-- `resolvedWidth m`: the capture width after the 7680 hard cap (line 647). -/
def resolvedWidth (m : PageMetrics) : Nat :=
  min (measuredPageWidth m) 7680

/-! ### Segment planning

`capture_full_page` performs a single capture per call: it scrolls once to the
effective start, resizes the window, and takes one screenshot.  Its effective
"segment plan" is therefore the one-element sequence below; there is no
multi-segment walk anywhere in the function. -/

/-- A scroll position together with the pixel height of page content the plan
intends to keep from the frame captured there. -/
structure Segment where
  offsetTop : Nat
  height : Nat
deriving DecidableEq, Repr

/-- The segment sequence that `capture_full_page` effectively executes for a
page of measured height `total` and requested start height `start`: exactly
one segment at the effective start, of the effective (capped) height. -/
def plan_segments (total start : Nat) : List Segment :=
  [⟨(effectiveRange total start).1, (effectiveRange total start).2⟩]

/-- Planning viewed as a fallible step (the spec vocabulary has an
`InvalidRange` error).  The code raises nothing in this step, so the embedding
always returns `segs`. -/
inductive PlanOutcome where
  | segs : List Segment → PlanOutcome
  | invalidRange : PlanOutcome
deriving DecidableEq, Repr

/-- The planning step of `capture_full_page` as a fallible computation: it
always succeeds with `plan_segments` (lines 634–640 warn and reset rather than
raise). -/
def plan_full_page_outcome (total start : Nat) : PlanOutcome :=
  PlanOutcome.segs (plan_segments total start)

/-- Sum of the heights of a segment sequence. -/
def segsSum (l : List Segment) : Nat :=
  (l.map Segment.height).sum

/-- `contiguousFromB pos l`: the segments of `l` start exactly at `pos` and
each subsequent one starts where the previous ended (no gap, no overlap). -/
def contiguousFromB : Nat → List Segment → Bool
  | _, [] => true
  | pos, s :: rest => (s.offsetTop == pos) && contiguousFromB (pos + s.height) rest

/-- `tilesB l a b`: the segment sequence `l` exactly tiles the interval
`[a, b)`: contiguous starting at `a`, heights summing to `b - a`. -/
def tilesB (l : List Segment) (a b : Nat) : Bool :=
  contiguousFromB a l && (segsSum l == b - a)

/-! ### The capture routine as a state-passing function (lines 601–719)

`capture_full_page` reads the original window size, measures the page (with a
fallback to the window size if the dimension queries raise), applies the
start-height handling and the hard caps, scrolls/resizes inside a
`try/except: pass` block, takes one screenshot, runs the crop step when the
(updated) start height is positive, saves, and only then — still inside the
`try`, not in a `finally` — restores the original window size.  The
environment below records which of the fallible calls raise. -/

/-- A browser window size. -/
structure WindowSize where
  width : Nat
  height : Nat
deriving DecidableEq, Repr

/-- Which fallible collaborator calls raise during `capture_full_page`. -/
structure CaptureEnv where
  dimsQueryFails : Bool
  resizeFails : Bool
  screenshotFails : Bool
  saveFails : Bool
deriving DecidableEq, Repr

/-- Observable outcome of one `capture_full_page` call. -/
structure CaptureOutcome where
  success : Bool
  finalWindow : WindowSize
  finalScrollY : Nat
  capturedWindow : Option WindowSize
  capturedScrollY : Option Nat
  savedImageHeight : Option Nat
deriving DecidableEq, Repr

/-- State-passing embedding of `capture_full_page` (lines 601–719).

* lines 604, 607–631: record `original_size`; measure the page, falling back
  to the original window size when the dimension queries raise;
* lines 634–650: start-height handling then hard caps (`effectiveRange`,
  `min _ 7680`);
* lines 653–674: scroll to the (updated) start, resize the window to
  `total_height` plus — when the updated start is positive — the original
  window height; the whole block is `try/except: pass`, so if the resize
  raises the window silently keeps its original size;
* line 677: the screenshot; if it raises, control jumps to the handler at
  line 717 which returns `False` — the window is NOT restored;
* lines 680–705: the crop step, executed only when the updated start height
  is positive, with `crop_top = 0` and `crop_bottom = image.height`;
* line 707: `save_screenshot`, which re-raises on failure (line 599), again
  reaching the handler with no restoration;
* lines 709–712: the restoration of the original window size, reached only
  when everything above succeeded. -/
def capture_full_page_model (env : CaptureEnv) (m : PageMetrics)
    (orig : WindowSize) (start_height : Nat) : CaptureOutcome :=
  let totalW0 := if env.dimsQueryFails then orig.width else measuredPageWidth m
  let totalH0 := if env.dimsQueryFails then orig.height else measuredPageHeight m
  let eff := effectiveRange totalH0 start_height
  let sh := eff.1
  let th := eff.2
  let tw := min totalW0 7680
  let adjusted := th + (if sh > 0 then orig.height else 0)
  let window1 := if env.resizeFails then orig else WindowSize.mk tw adjusted
  let scroll1 := sh
  if env.screenshotFails then
    { success := false, finalWindow := window1, finalScrollY := scroll1,
      capturedWindow := none, capturedScrollY := none, savedImageHeight := none }
  else
    let frameH := window1.height
    let crop_top := 0
    let crop_bottom := frameH
    let imageH := if sh > 0 then crop_bottom - crop_top else frameH
    if env.saveFails then
      { success := false, finalWindow := window1, finalScrollY := scroll1,
        capturedWindow := some window1, capturedScrollY := some scroll1,
        savedImageHeight := none }
    else
      { success := true, finalWindow := orig, finalScrollY := scroll1,
        capturedWindow := some window1, capturedScrollY := some scroll1,
        savedImageHeight := some imageH }

/-! ### The login subsystem (lines 210–581) -/

/-- Outcome classification at the end of `openshift_login` (lines 340–370).
Inputs are the raw `driver.current_url` and `driver.page_source`; the code
lowercases the page source once and the URL at each use.  The success check
(any success indicator, or the text `login` absent from the URL) runs FIRST; the
error-phrase check runs only in its `else` branch, and an inconclusive page
is optimistically treated as success. -/
def openshift_login_verify (current_url page_source : String) : Bool :=
  let ps := pyLower page_source
  let cu := pyLower current_url
  let successAny :=
    strHasSub "console" cu || strHasSub "dashboard" cu || strHasSub "overview" cu ||
    strHasSub "projects" ps || strHasSub "logout" ps || strHasSub "sign out" ps ||
    strHasSub "openshift console" ps
  if successAny || !(strHasSub "login" cu) then
    true
  else
    if strHasSub "invalid" ps || strHasSub "error" ps || strHasSub "incorrect" ps ||
       strHasSub "failed" ps || strHasSub "unauthorized" ps then
      false
    else
      true

/-- The three provider families `auto_detect_login_type` can select. -/
inductive Provider where
  | grafana
  | openshift
  | generic
deriving DecidableEq, Repr

/-- Provider detection (lines 388–404), applied to the already-lowercased
page source and current URL: Grafana markers first, then OpenShift markers,
else the generic handler. -/
def detectProvider (page_source current_url : String) : Provider :=
  if strHasSub "grafana" page_source || strHasSub "grafana" current_url ||
     strHasSub "welcome to grafana" page_source then
    Provider.grafana
  else if strHasSub "openshift" page_source || strHasSub "red hat" page_source ||
          strHasSub "openshift" current_url || strHasSub "console-openshift" current_url then
    Provider.openshift
  else
    Provider.generic

/-- The methods actually defined on class `WebScreenshotTool` in the source
(in definition order).  Note the dead Grafana block at lines 459–581 sits
unreachably inside `generic_login` after both of its return paths, so it
defines no method. -/
def webScreenshotToolMethods : List String :=
  ["__init__", "find_chromedriver", "setup_driver", "validate_url",
   "wait_for_page_load", "openshift_login", "auto_detect_login_type",
   "generic_login", "save_screenshot", "capture_full_page",
   "capture_viewport_from_height", "capture_screenshot"]

/-- Python attribute lookup on a `WebScreenshotTool` instance: does a method
of this name exist?  If not, `self.<name>` raises `AttributeError`. -/
def methodDefined (name : String) : Bool :=
  webScreenshotToolMethods.contains name

/-- `auto_detect_login_type` (lines 376–409).  The driver interactions of the
selected provider login routine are abstracted into `attempt`, the result
that routine would return.  The Grafana branch calls `self.grafana_login`
(line 392); since no such method is defined, the call raises
`AttributeError`, which the own `except` of the function (lines 407–409) catches,
returning `False`.  Exactly one provider is ever dispatched per call. -/
def auto_detect_login_type (page_source current_url : String)
    (attempt : Provider → Bool) : Bool :=
  let ps := pyLower page_source
  let cu := pyLower current_url
  match detectProvider ps cu with
  | Provider.grafana =>
      if methodDefined "grafana_login" then attempt Provider.grafana else false
  | Provider.openshift => attempt Provider.openshift
  | Provider.generic => attempt Provider.generic

/-! ### capture_screenshot (lines 738–851)

Only the control flow relevant to authentication fallback is embedded: after
the driver is up, if credentials were supplied the dispatcher runs; on
success the code navigates to the target URL and adds dashboard waits
(lines 774–794); on failure it prints a message and navigates to the very
same target URL (lines 795–797); without credentials it navigates directly
(lines 799–801).  All three paths then fall through to the page-load wait and
the capture call (lines 804–826). -/

/-- Externally visible steps of `capture_screenshot`, in order. -/
inductive Event where
  | loginFlow
  | navigate : String → Event
  | waitDashboard
  | waitLoad
  | fullPageCapture
  | viewportCapture
deriving DecidableEq, Repr

/-- Trace-and-result embedding of `capture_screenshot`: `needLogin` is
`username and password` (line 767), `loginOk` the dispatcher result, and
the returned flag is the own result of the capture routine (line 823/826) —
`capture_full_page_model` for the full-page path, the screenshot/save pair
for the viewport path (`capture_viewport_from_height`, lines 721–736). -/
def capture_screenshot_model (url : String) (needLogin loginOk fullPage : Bool)
    (env : CaptureEnv) (m : PageMetrics) (orig : WindowSize)
    (start_height : Nat) : Bool × List Event :=
  let pre : List Event :=
    if needLogin then
      if loginOk then [Event.loginFlow, Event.navigate url, Event.waitDashboard]
      else [Event.loginFlow, Event.navigate url]
    else [Event.navigate url]
  let capEvent := if fullPage then Event.fullPageCapture else Event.viewportCapture
  let ok :=
    if fullPage then (capture_full_page_model env m orig start_height).success
    else !(env.screenshotFails || env.saveFails)
  (ok, pre ++ [Event.waitLoad, capEvent])

/-! ### The CLI surface (lines 853–960)

`create_parser` builds the argument parser through a straight-line sequence
of statements; the two authentication options are added on a name
`auth_group` that no statement ever binds (there is no
`auth_group = parser.add_argument_group(...)` line), so executing the
sequence raises `NameError` there.  `main` (lines 890–960) calls
`create_parser()` with no handler around it and, had parsing succeeded,
would read `args.preset`, `args.start_height`, `args.high_res` and
`args.scale_factor` before calling `capture_screenshot`. -/

/-- One statement of the `create_parser` body: either bind a local name, or
call `.add_argument` on the object named `recv`, registering destination
`dest`. -/
inductive PyStmt where
  | assign : String → PyStmt
  | addArg : String → String → PyStmt
deriving DecidableEq, Repr

/-- Result of running Python code that can raise `NameError`. -/
inductive PyResult (α : Type) where
  | ok : α → PyResult α
  | nameError : String → PyResult α
deriving DecidableEq, Repr

/-- The statement sequence of `create_parser` (lines 855–888), in source
order, with the destination of each `add_argument` call. -/
def create_parser_stmts : List PyStmt :=
  [PyStmt.assign "parser",
   PyStmt.addArg "parser" "url",
   PyStmt.addArg "parser" "output",
   PyStmt.addArg "parser" "width",
   PyStmt.addArg "parser" "height",
   PyStmt.addArg "parser" "no_full_page",
   PyStmt.addArg "parser" "wait",
   PyStmt.addArg "parser" "dpi",
   PyStmt.addArg "parser" "quality",
   PyStmt.addArg "auth_group" "username",
   PyStmt.addArg "auth_group" "password",
   PyStmt.addArg "parser" "version"]

/-- Run a statement sequence: an `assign` binds its name; an `addArg` first
looks its receiver up in the bound names, raising `NameError` when absent,
and otherwise records the destination. -/
def runStmts : List PyStmt → List String → List String → PyResult (List String)
  | [], _, dests => PyResult.ok dests
  | PyStmt.assign n :: rest, env, dests => runStmts rest (n :: env) dests
  | PyStmt.addArg r d :: rest, env, dests =>
      if env.contains r then runStmts rest env (dests ++ [d])
      else PyResult.nameError r

/-- Executing the body of `create_parser` from an empty local scope. -/
def create_parser_model : PyResult (List String) :=
  runStmts create_parser_stmts [] []

/-- Every destination any `add_argument` call in `create_parser` would
register, even ignoring the `NameError` — the full set of argument names the
parser could ever define. -/
def allArgumentDests : List String :=
  create_parser_stmts.filterMap fun s =>
    match s with
    | PyStmt.addArg _ d => some d
    | PyStmt.assign _ => none

/-- How far an invocation of `main` gets. -/
inductive MainOutcome where
  | uncaughtNameError : String → MainOutcome
  | uncaughtAttributeError : String → MainOutcome
  | ranCapture : MainOutcome
deriving DecidableEq, Repr

/-- `main` (lines 890–960): it first calls `create_parser()` (uncaught
`NameError` propagates); were that to succeed, line 897 reads `args.preset`,
which raises `AttributeError` unless some parser argument defined that
destination; only past all the attribute reads would `capture_screenshot`
run. -/
def main_model : MainOutcome :=
  match create_parser_model with
  | PyResult.nameError n => MainOutcome.uncaughtNameError n
  | PyResult.ok dests =>
      if dests.contains "preset" then
        if dests.contains "start_height" && dests.contains "high_res" &&
           dests.contains "scale_factor" then
          MainOutcome.ranCapture
        else MainOutcome.uncaughtAttributeError "start_height"
      else MainOutcome.uncaughtAttributeError "preset"

/-! ### Sample concrete inputs used by counterexamples and witnesses -/

/-- A page whose twelve metrics consistently report width 800 and height
1500. -/
def sampleMetricsA : PageMetrics :=
  ⟨800, 800, 800, 800, 800, 800, 1500, 1500, 1500, 1500, 1500, 1500⟩

/-- A page whose twelve metrics consistently report width 1000 and height
3000. -/
def sampleMetricsB : PageMetrics :=
  ⟨1000, 1000, 1000, 1000, 1000, 1000, 3000, 3000, 3000, 3000, 3000, 3000⟩

/-- A page whose twelve metrics consistently report width 800 and height
1000. -/
def sampleMetricsC : PageMetrics :=
  ⟨800, 800, 800, 800, 800, 800, 1000, 1000, 1000, 1000, 1000, 1000⟩

/-- A run in which every fallible collaborator call succeeds. -/
def envAllOk : CaptureEnv :=
  ⟨false, false, false, false⟩

/-- A run in which `driver.get_screenshot_as_png()` raises and everything
else would succeed. -/
def envScreenshotRaises : CaptureEnv :=
  ⟨false, false, true, false⟩

/-! ## Claim theorems -/

/-- C1, counterexample: a page measured at 25000 pixels with start 0 is a
valid request with end − start = 25000 > 0, yet the plan of the code covers
only 20000 pixels (the hard cap is folded into the single emitted segment),
so the segments do not tile the interval and the heights do not sum to
end − start. -/
theorem C1_tiling_cex :
    (0 : Nat) < 25000 ∧ tilesB (plan_segments 25000 0) 0 25000 = false := by
  decide

/-- C1, amended: for every request with start < end whose range height does
not exceed the 20000 hard cap, planning emits exactly one segment
`{offsetTop := start, height := end − start}`, and that single segment
exactly tiles `[start, end)` — contiguous, no gaps or overlaps, heights
summing to end − start; in particular when end − start is at most the
viewport height exactly one such segment is emitted.  Ranges above the cap
are truncated to 20000. -/
theorem C1_tiling_amended (e s : Nat) (h1 : s < e) (h2 : e - s ≤ 20000) :
    plan_segments e s = [⟨s, e - s⟩] ∧ tilesB (plan_segments e s) s e = true := by
  have hplan : effectiveRange e s = (s, e - s) := by
    unfold effectiveRange
    split
    · split
      · omega
      · have hmin : min (e - s) 20000 = e - s := by omega
        rw [hmin]
    · have h0 : s = 0 := by omega
      subst h0
      have hmin : min e 20000 = e := by omega
      simp [hmin]
  constructor
  · unfold plan_segments
    rw [hplan]
  · unfold plan_segments
    rw [hplan]
    simp [tilesB, contiguousFromB, segsSum]

/-- C1, witness: the amended theorem at the concrete request
(end 3000, start 0). -/
theorem C1_tiling_amended_witness :
    ((0 : Nat) < 3000 ∧ 3000 - 0 ≤ 20000) ∧
      (plan_segments 3000 0 = [⟨0, 3000 - 0⟩] ∧
        tilesB (plan_segments 3000 0) 0 3000 = true) :=
  ⟨⟨by decide, by decide⟩, C1_tiling_amended 3000 0 (by decide) (by decide)⟩

/-- C2, counterexample: with measured page height 300 and requested start
1200 (the inverted range of the spec example), the planning step does not
fail with `InvalidRange`: it produces a segment, and for the different range
`[0, 300)` at that. -/
theorem C2_invalid_range_cex :
    plan_full_page_outcome 300 1200 ≠ PlanOutcome.invalidRange ∧
      plan_full_page_outcome 300 1200 = PlanOutcome.segs [⟨0, 300⟩] := by
  decide

/-- C2, amended: when the requested start height is at least the measured
page height, the code logs a warning, resets the start to 0, and plans the
full page `[0, min end 20000)` instead; no `InvalidRange` error exists in the
code. -/
theorem C2_invalid_range_amended (e s : Nat) (h : e ≤ s) :
    plan_full_page_outcome e s = PlanOutcome.segs [⟨0, min e 20000⟩] := by
  unfold plan_full_page_outcome plan_segments effectiveRange
  by_cases hs : s > 0
  · have hge : s ≥ e := h
    simp [hs, hge]
  · have h0 : s = 0 := by omega
    subst h0
    simp

/-- C2, witness: the amended theorem at the degenerate empty range
(end 500, start 500). -/
theorem C2_invalid_range_amended_witness :
    (500 : Nat) ≤ 500 ∧
      plan_full_page_outcome 500 500 = PlanOutcome.segs [⟨0, min 500 20000⟩] :=
  ⟨by decide, C2_invalid_range_amended 500 500 (by decide)⟩

/-- C3, counterexample: a post-submission page whose source contains the
failure phrase `invalid` (case-insensitively) is classified as a SUCCESS when
the current URL no longer contains `login` — the URL change wins over the
failure phrase, contradicting the claim that the phrase forces `Failed`
regardless of URL change. -/
theorem C3_failure_phrase_cex :
    strHasSub "invalid" (pyLower "Invalid password") = true ∧
      openshift_login_verify "https://host/welcome" "Invalid password" = true := by
  decide

/-- C3, amended: a failure phrase forces the failure classification only when
no success indicator matched AND the current URL still contains `login`;
under those extra conditions a page containing any of the five failure
phrases is classified as failed. -/
theorem C3_failure_phrase_amended (cu ps : String)
    (hSucc : (strHasSub "console" (pyLower cu) || strHasSub "dashboard" (pyLower cu) ||
        strHasSub "overview" (pyLower cu) || strHasSub "projects" (pyLower ps) ||
        strHasSub "logout" (pyLower ps) || strHasSub "sign out" (pyLower ps) ||
        strHasSub "openshift console" (pyLower ps)) = false)
    (hLogin : strHasSub "login" (pyLower cu) = true)
    (hErr : (strHasSub "invalid" (pyLower ps) || strHasSub "error" (pyLower ps) ||
        strHasSub "incorrect" (pyLower ps) || strHasSub "failed" (pyLower ps) ||
        strHasSub "unauthorized" (pyLower ps)) = true) :
    openshift_login_verify cu ps = false := by
  simp only [openshift_login_verify, hSucc, hLogin, hErr]
  simp

/-- C3, witness: the amended theorem at a login URL that did not change and a
page reading `invalid password`. -/
theorem C3_failure_phrase_amended_witness :
    ((strHasSub "console" (pyLower "https://h/login") ||
        strHasSub "dashboard" (pyLower "https://h/login") ||
        strHasSub "overview" (pyLower "https://h/login") ||
        strHasSub "projects" (pyLower "invalid password") ||
        strHasSub "logout" (pyLower "invalid password") ||
        strHasSub "sign out" (pyLower "invalid password") ||
        strHasSub "openshift console" (pyLower "invalid password")) = false) ∧
      strHasSub "login" (pyLower "https://h/login") = true ∧
      openshift_login_verify "https://h/login" "invalid password" = false :=
  ⟨by decide, by decide,
    C3_failure_phrase_amended "https://h/login" "invalid password"
      (by decide) (by decide) (by decide)⟩

/-- C4, counterexample: viewport height 1000, page measured at 1500, start
height 1000, so the captured segment has height 500 < 1000; the proportional
rule of the claim would keep 1500 · 500 / 1000 = 750 rows, but the crop step
of the code sets `crop_top = 0` and `crop_bottom = image.height` and the
saved image keeps all 1500 frame rows. -/
theorem C4_proportional_crop_cex :
    (capture_full_page_model envAllOk sampleMetricsA ⟨800, 1000⟩ 1000).savedImageHeight
        = some 1500 ∧
      (1500 : Nat) * 500 / 1000 = 750 ∧ (1500 : Nat) ≠ 750 := by
  decide

/-- C4, amended: the crop step is the identity — whenever the screenshot and
the save succeed, the saved image height equals the full height of the frame
(the window height at capture time); rows are never scaled by the
segment-to-viewport ratio. -/
theorem C4_crop_amended (env : CaptureEnv) (m : PageMetrics) (orig : WindowSize)
    (s : Nat) (h1 : env.screenshotFails = false) (h2 : env.saveFails = false) :
    (capture_full_page_model env m orig s).savedImageHeight =
      Option.map WindowSize.height (capture_full_page_model env m orig s).capturedWindow := by
  simp [capture_full_page_model, h1, h2]

/-- C4, witness: the amended theorem at the concrete run of the
counterexample input. -/
theorem C4_crop_amended_witness :
    envAllOk.screenshotFails = false ∧ envAllOk.saveFails = false ∧
      (capture_full_page_model envAllOk sampleMetricsA ⟨800, 1000⟩ 1000).savedImageHeight =
        Option.map WindowSize.height
          (capture_full_page_model envAllOk sampleMetricsA ⟨800, 1000⟩ 1000).capturedWindow :=
  ⟨by decide, by decide,
    C4_crop_amended envAllOk sampleMetricsA ⟨800, 1000⟩ 1000 (by decide) (by decide)⟩

/-- C5, counterexample: a page consistently measured at height 1000 with
requested start height 300: the height the code proceeds with is 700, not the
clamped true page height min 1000 20000 = 1000 — the range reduction happens
BEFORE the hard cap, inside the geometry step, not in segment planning. -/
theorem C5_geometry_cex :
    measuredPageHeight sampleMetricsC = 1000 ∧
      resolvedHeight sampleMetricsC 300 = 700 ∧
      (700 : Nat) ≠ min 1000 20000 := by
  decide

/-- C5, amended: per axis the measurement does take the maximum across the
six reported metrics (the measured value dominates every metric), and the
width is clamped to 7680; but for a requested start height 0 < s < measured
height, the height the capture proceeds with is min (measured − s) 20000 —
the start-height reduction is applied to the measured height before the
20000 hard cap, so the resolved height is the remaining range, not the true
page height. -/
theorem C5_geometry_amended (m : PageMetrics) (s : Nat)
    (h1 : 0 < s) (h2 : s < measuredPageHeight m) :
    (∀ x ∈ heightMetrics m, x ≤ measuredPageHeight m) ∧
      (∀ x ∈ widthMetrics m, x ≤ measuredPageWidth m) ∧
      resolvedWidth m ≤ 7680 ∧
      resolvedHeight m s = min (measuredPageHeight m - s) 20000 := by
  refine ⟨?_, ?_, ?_, ?_⟩
  · intro x hx
    simp only [heightMetrics, List.mem_cons, List.not_mem_nil, or_false] at hx
    simp only [measuredPageHeight, heightMetrics, List.foldr]
    rcases hx with rfl | rfl | rfl | rfl | rfl | rfl <;> omega
  · intro x hx
    simp only [widthMetrics, List.mem_cons, List.not_mem_nil, or_false] at hx
    simp only [measuredPageWidth, widthMetrics, List.foldr]
    rcases hx with rfl | rfl | rfl | rfl | rfl | rfl <;> omega
  · simp only [resolvedWidth]
    omega
  · simp only [resolvedHeight, effectiveRange]
    have hne : ¬ s ≥ measuredPageHeight m := by omega
    simp [h1, hne]

/-- C5, witness: the amended theorem at the metrics reporting 1000 and start
height 300. -/
theorem C5_geometry_amended_witness :
    ((0 : Nat) < 300 ∧ 300 < measuredPageHeight sampleMetricsC) ∧
      ((∀ x ∈ heightMetrics sampleMetricsC, x ≤ measuredPageHeight sampleMetricsC) ∧
        (∀ x ∈ widthMetrics sampleMetricsC, x ≤ measuredPageWidth sampleMetricsC) ∧
        resolvedWidth sampleMetricsC ≤ 7680 ∧
        resolvedHeight sampleMetricsC 300 =
          min (measuredPageHeight sampleMetricsC - 300) 20000) :=
  ⟨⟨by decide, by decide⟩, C5_geometry_amended sampleMetricsC 300 (by decide) (by decide)⟩

/-- C6, counterexample: a run in which the screenshot call raises: the
capture fails (returns False through the handler at line 717) and the final
window size is the resized 1000 × 3000, NOT the original 1920 × 1080 — the
restoration at lines 709–712 sits inside the `try` body, not in a `finally`,
so it is skipped on the exception path. -/
theorem C6_restore_cex :
    (capture_full_page_model envScreenshotRaises sampleMetricsB ⟨1920, 1080⟩ 0).success
        = false ∧
      (capture_full_page_model envScreenshotRaises sampleMetricsB ⟨1920, 1080⟩ 0).finalWindow
        ≠ ⟨1920, 1080⟩ := by
  decide

/-- C6, amended: the original window size is restored only on the fully
successful path — whenever neither the screenshot nor the save raises, the
call succeeds and the final window equals the original; on the exception
paths the window is left at its resized dimensions. -/
theorem C6_restore_amended (env : CaptureEnv) (m : PageMetrics) (orig : WindowSize)
    (s : Nat) (h1 : env.screenshotFails = false) (h2 : env.saveFails = false) :
    (capture_full_page_model env m orig s).success = true ∧
      (capture_full_page_model env m orig s).finalWindow = orig := by
  simp [capture_full_page_model, h1, h2]

/-- C6, witness: the amended theorem on a fully successful run. -/
theorem C6_restore_amended_witness :
    envAllOk.screenshotFails = false ∧ envAllOk.saveFails = false ∧
      ((capture_full_page_model envAllOk sampleMetricsB ⟨1920, 1080⟩ 0).success = true ∧
        (capture_full_page_model envAllOk sampleMetricsB ⟨1920, 1080⟩ 0).finalWindow
          = ⟨1920, 1080⟩) :=
  ⟨by decide, by decide,
    C6_restore_amended envAllOk sampleMetricsB ⟨1920, 1080⟩ 0 (by decide) (by decide)⟩

/-- C7, counterexample: a page detected as OpenShift whose OpenShift attempt
fails while the generic attempt would succeed: the dispatcher returns overall
failure without ever trying the remaining provider — there is no advancing to
the next profile. -/
theorem C7_provider_fallback_cex :
    auto_detect_login_type "OpenShift console" "https://h/login"
        (fun p => decide (p = Provider.generic)) = false ∧
      (fun p => decide (p = Provider.generic)) Provider.generic = true := by
  decide

/-- C7, amended: the dispatcher selects exactly one provider by marker
sniffing and returns the result of that single attempt: the overall outcome
depends only on the outcome of the detected provider, so two attempt oracles
agreeing on the detected provider give the same overall result — no other
provider is ever consulted. -/
theorem C7_provider_fallback_amended (ps cu : String) (f g : Provider → Bool)
    (hfg : f (detectProvider (pyLower ps) (pyLower cu)) =
      g (detectProvider (pyLower ps) (pyLower cu))) :
    auto_detect_login_type ps cu f = auto_detect_login_type ps cu g := by
  simp only [auto_detect_login_type]
  cases h : detectProvider (pyLower ps) (pyLower cu) with
  | grafana =>
      have hm : methodDefined "grafana_login" = false := by decide
      simp [hm]
  | openshift =>
      rw [h] at hfg
      simpa using hfg
  | generic =>
      rw [h] at hfg
      simpa using hfg

/-- C7, witness: the amended theorem at a page with no provider markers and
two oracles agreeing on the generic provider. -/
theorem C7_provider_fallback_amended_witness :
    auto_detect_login_type "plain page" "https://h/login" (fun _ => true) =
      auto_detect_login_type "plain page" "https://h/login"
        (fun p => decide (p = Provider.generic)) :=
  C7_provider_fallback_amended "plain page" "https://h/login" (fun _ => true)
    (fun p => decide (p = Provider.generic)) (by decide)

/-- C8, confirmed: when credentials were supplied and the authentication
phase fails, `capture_screenshot` does not abort — the event trace still
navigates to the originally requested target URL and performs the capture
step, and the overall result is exactly what it would have been had the
login succeeded (it is the result of the capture routine alone). -/
theorem C8_auth_fallthrough (url : String) (fp : Bool) (env : CaptureEnv)
    (m : PageMetrics) (orig : WindowSize) (s : Nat) :
    (capture_screenshot_model url true false fp env m orig s).2 =
        [Event.loginFlow, Event.navigate url, Event.waitLoad,
          if fp then Event.fullPageCapture else Event.viewportCapture] ∧
      (capture_screenshot_model url true false fp env m orig s).1 =
        (capture_screenshot_model url true true fp env m orig s).1 := by
  simp [capture_screenshot_model]

/-- C9, confirmed: on any page whose source or URL contains the substring
`grafana` (case-insensitively), `auto_detect_login_type` selects the Grafana
branch, whose call `self.grafana_login(...)` targets a method that class
`WebScreenshotTool` never defines; the resulting `AttributeError` is caught
by the surrounding handler, so the call returns `False` for every attempt
oracle. -/
theorem C9_grafana_attr_error (ps cu : String) (f : Provider → Bool)
    (h : (strHasSub "grafana" (pyLower ps) || strHasSub "grafana" (pyLower cu)) = true) :
    methodDefined "grafana_login" = false ∧ auto_detect_login_type ps cu f = false := by
  have hm : methodDefined "grafana_login" = false := by decide
  refine ⟨hm, ?_⟩
  have hdet : detectProvider (pyLower ps) (pyLower cu) = Provider.grafana := by
    unfold detectProvider
    rcases Bool.or_eq_true_iff.mp h with h1 | h2
    · simp [h1]
    · simp [h2]
  simp only [auto_detect_login_type]
  rw [hdet]
  simp [hm]

/-- C9, witness: the theorem at a Grafana welcome page. -/
theorem C9_grafana_attr_error_witness :
    (strHasSub "grafana" (pyLower "Welcome to Grafana") ||
        strHasSub "grafana" (pyLower "https://h/login")) = true ∧
      (methodDefined "grafana_login" = false ∧
        auto_detect_login_type "Welcome to Grafana" "https://h/login"
          (fun _ => true) = false) :=
  ⟨by decide,
    C9_grafana_attr_error "Welcome to Grafana" "https://h/login" (fun _ => true)
      (by decide)⟩

/-- C10, confirmed: executing the body of `create_parser` raises `NameError`
on the unbound name `auth_group`, so every invocation of `main` dies there,
before any capture; moreover no `add_argument` call in `create_parser` —
even ignoring the `NameError` — registers any of the destinations `preset`,
`start_height`, `high_res` or `scale_factor` that `main` reads, so `main`
could never reach `capture_screenshot` anyway. -/
theorem C10_cli_never_captures :
    create_parser_model = PyResult.nameError "auth_group" ∧
      main_model = MainOutcome.uncaughtNameError "auth_group" ∧
      main_model ≠ MainOutcome.ranCapture ∧
      "preset" ∉ allArgumentDests ∧
      "start_height" ∉ allArgumentDests ∧
      "high_res" ∉ allArgumentDests ∧
      "scale_factor" ∉ allArgumentDests := by
  decide
